import Mathlib

/-!
Verification of the PostureGuard posture scoring engine.

The definitions below are a shallow embedding of the Python sources
`posture_core.py`, `camera_preview.py` and `postureguard.py`:
Python floats are modelled as exact rationals (ℚ), Python dicts of
metric values as a structure with one field per key, optional dict
arguments as `Option`, and Python `int(...)` as truncation toward zero.
-/

namespace PostureGuard

/-- Truncation toward zero, the behaviour of Python `int()` on a float. -/
def pyTrunc (q : ℚ) : ℤ := if q < 0 then ⌈q⌉ else ⌊q⌋

/-- A single landmark as delivered by the pose provider:
normalized coordinates plus a visibility confidence. -/
structure Landmark where
  x : ℚ
  y : ℚ
  visibility : ℚ
deriving DecidableEq, Repr

/-- The five required pose landmarks, accessed by name
(`lm[pose.PoseLandmark.NOSE]` etc. in the source). -/
structure PoseLandmarks where
  nose : Landmark
  left_ear : Landmark
  right_ear : Landmark
  left_shoulder : Landmark
  right_shoulder : Landmark
deriving DecidableEq, Repr

/-- The four face-mesh points the extractors read
(indices 10 = forehead, 152 = chin, 234 = left cheek, 454 = right cheek). -/
structure FacePoints where
  forehead : Landmark
  chin : Landmark
  left_cheek : Landmark
  right_cheek : Landmark
deriving DecidableEq, Repr

/-- A full metric dictionary: one field per key produced by
`posture_core.extract_metrics`. -/
structure MetricVector where
  nose_to_shoulder_y : ℚ
  nose_to_shoulder_x : ℚ
  ear_shoulder_dist : ℚ
  shoulder_tilt : ℚ
  nose_to_ear_y : ℚ
  face_tilt : ℚ
  face_forward_ratio : ℚ
  nose_y : ℚ
  mid_ear_y : ℚ
  mid_shoulder_y : ℚ
deriving DecidableEq, Repr

-- Module-level default thresholds (posture_core.py lines 19-23).
def THRESH_HEAD_DROP : ℚ := 0.04
def THRESH_HEAD_FORWARD : ℚ := 0.03
def THRESH_HEAD_TILT : ℚ := 0.03
def THRESH_SHOULDER_TILT : ℚ := 0.025
def THRESH_SLOUCH : ℚ := 0.06

/-- A threshold dictionary, as passed in `SENSITIVITY_PRESETS[...]`;
field names are the Python dict keys. -/
structure ThresholdSet where
  THRESH_HEAD_DROP : ℚ
  THRESH_SLOUCH : ℚ
  THRESH_HEAD_FORWARD : ℚ
  THRESH_SHOULDER_TILT : ℚ
deriving DecidableEq, Repr

/-- `SENSITIVITY_PRESETS` (posture_core.py lines 26-45) as a lookup from
preset name to threshold set. -/
def SENSITIVITY_PRESETS (name : String) : Option ThresholdSet :=
  if name = "low" then
    some { THRESH_HEAD_DROP := 0.06, THRESH_SLOUCH := 0.09,
           THRESH_HEAD_FORWARD := 0.045, THRESH_SHOULDER_TILT := 0.04 }
  else if name = "medium" then
    some { THRESH_HEAD_DROP := 0.04, THRESH_SLOUCH := 0.06,
           THRESH_HEAD_FORWARD := 0.03, THRESH_SHOULDER_TILT := 0.025 }
  else if name = "high" then
    some { THRESH_HEAD_DROP := 0.025, THRESH_SLOUCH := 0.04,
           THRESH_HEAD_FORWARD := 0.02, THRESH_SHOULDER_TILT := 0.015 }
  else none

-- Penalty weights per issue (posture_core.py lines 48-52).
def WEIGHT_HEAD_DROP : ℚ := 30
def WEIGHT_SLOUCH : ℚ := 35
def WEIGHT_LEAN : ℚ := 20
def WEIGHT_SHOULDER : ℚ := 20
def WEIGHT_FORWARD : ℚ := 25

-- Timing constants (posture_core.py lines 55-57, postureguard.py lines 30-31).
def BAD_POSTURE_SECONDS : ℚ := 5
def COOLDOWN_SECONDS : ℚ := 45

def MIN_VISIBILITY : ℚ := 0.4

/-- `(thresholds or {}).get('THRESH_HEAD_DROP', THRESH_HEAD_DROP)`. -/
def tHead (thresholds : Option ThresholdSet) : ℚ :=
  (thresholds.map ThresholdSet.THRESH_HEAD_DROP).getD THRESH_HEAD_DROP

/-- `(thresholds or {}).get('THRESH_SLOUCH', THRESH_SLOUCH)`. -/
def tSlouch (thresholds : Option ThresholdSet) : ℚ :=
  (thresholds.map ThresholdSet.THRESH_SLOUCH).getD THRESH_SLOUCH

/-- `(thresholds or {}).get('THRESH_HEAD_FORWARD', THRESH_HEAD_FORWARD)`. -/
def tLateral (thresholds : Option ThresholdSet) : ℚ :=
  (thresholds.map ThresholdSet.THRESH_HEAD_FORWARD).getD THRESH_HEAD_FORWARD

/-- `(thresholds or {}).get('THRESH_SHOULDER_TILT', THRESH_SHOULDER_TILT)`. -/
def tShoulder (thresholds : Option ThresholdSet) : ℚ :=
  (thresholds.map ThresholdSet.THRESH_SHOULDER_TILT).getD THRESH_SHOULDER_TILT

/-- `posture_core.compare_to_baseline` (lines 128-189).  Each `if` block of
the source contributes a penalty term and an issue-list fragment; the
sequential `penalty +=` / `issues.append` accumulation is rendered as the
sum / concatenation of the per-check contributions, in source order. -/
def compare_to_baseline (current baseline : MetricVector)
    (thresholds : Option ThresholdSet := none) : List (String × ℚ) × ℤ :=
  let t_head := tHead thresholds
  let t_slouch := tSlouch thresholds
  let t_lean := tLateral thresholds
  let t_shoulder := tShoulder thresholds
  -- Head drop
  let head_drop := current.nose_to_shoulder_y - baseline.nose_to_shoulder_y
  let p1 : ℚ := if head_drop > t_head then
      min 1 (head_drop / (t_head * 3)) * WEIGHT_HEAD_DROP else 0
  let i1 : List (String × ℚ) := if head_drop > t_head then
      [("Head dropping — chin up!", head_drop)] else []
  -- Slouch
  let slouch := baseline.ear_shoulder_dist - current.ear_shoulder_dist
  let p2 : ℚ := if slouch > t_slouch then
      min 1 (slouch / (t_slouch * 3)) * WEIGHT_SLOUCH else 0
  let i2 : List (String × ℚ) := if slouch > t_slouch then
      [("Slouching — sit up straight!", slouch)] else []
  -- Lateral lean
  let lateral_drift := |current.nose_to_shoulder_x - baseline.nose_to_shoulder_x|
  let p3 : ℚ := if lateral_drift > t_lean then
      min 1 (lateral_drift / (t_lean * 3)) * WEIGHT_LEAN else 0
  let direction :=
    if current.nose_to_shoulder_x - baseline.nose_to_shoulder_x < 0 then "left" else "right"
  let i3 : List (String × ℚ) := if lateral_drift > t_lean then
      [("Leaning " ++ direction ++ " — center up!", lateral_drift)] else []
  -- Shoulder tilt
  let tilt_diff := |current.shoulder_tilt| - |baseline.shoulder_tilt|
  let p4 : ℚ := if |current.shoulder_tilt| > t_shoulder then
      (if tilt_diff > 0.01 then
        min 1 (|current.shoulder_tilt| / (t_shoulder * 3)) * WEIGHT_SHOULDER else 0) else 0
  let i4 : List (String × ℚ) := if |current.shoulder_tilt| > t_shoulder then
      (if tilt_diff > 0.01 then
        [("Shoulders uneven — level out!", |current.shoulder_tilt|)] else []) else []
  -- Forward lean (face width ratio)
  let forward := current.face_forward_ratio - baseline.face_forward_ratio
  let p5 : ℚ := if current.face_forward_ratio > 0 ∧ baseline.face_forward_ratio > 0 then
      (if forward > 0.03 then min 1 (forward / 0.09) * WEIGHT_FORWARD else 0) else 0
  let i5 : List (String × ℚ) := if current.face_forward_ratio > 0 ∧ baseline.face_forward_ratio > 0 then
      (if forward > 0.03 then [("Leaning forward — sit back!", forward)] else []) else []
  let penalty := p1 + p2 + p3 + p4 + p5
  let issues := i1 ++ i2 ++ i3 ++ i4 ++ i5
  (issues, max 0 (pyTrunc (100 - penalty)))

/-- `posture_core.extract_metrics` (lines 79-125).  The returned Python dict
is embedded as the literal association list of its entries, in source order,
so that presence of keys is a property of the result rather than of its type. -/
def extract_metrics (pose_landmarks : PoseLandmarks)
    (face_landmarks : Option FacePoints := none) : Option (List (String × ℚ)) :=
  let nose := pose_landmarks.nose
  let left_ear := pose_landmarks.left_ear
  let right_ear := pose_landmarks.right_ear
  let left_shoulder := pose_landmarks.left_shoulder
  let right_shoulder := pose_landmarks.right_shoulder
  if [nose, left_ear, right_ear, left_shoulder, right_shoulder].any
      (fun p => p.visibility < MIN_VISIBILITY) then
    none
  else
    let mid_shoulder_y := (left_shoulder.y + right_shoulder.y) / 2
    let mid_shoulder_x := (left_shoulder.x + right_shoulder.x) / 2
    let mid_ear_y := (left_ear.y + right_ear.y) / 2
    let face_tilt : ℚ := match face_landmarks with
      | none => 0
      | some f => f.forehead.x - f.chin.x
    let face_forward_ratio : ℚ := match face_landmarks with
      | none => 0
      | some f => |f.left_cheek.x - f.right_cheek.x|
    some [("nose_to_shoulder_y", nose.y - mid_shoulder_y),
          ("nose_to_shoulder_x", nose.x - mid_shoulder_x),
          ("ear_shoulder_dist", mid_shoulder_y - mid_ear_y),
          ("shoulder_tilt", left_shoulder.y - right_shoulder.y),
          ("nose_to_ear_y", nose.y - mid_ear_y),
          ("face_tilt", face_tilt),
          ("face_forward_ratio", face_forward_ratio),
          ("nose_y", nose.y),
          ("mid_ear_y", mid_ear_y),
          ("mid_shoulder_y", mid_shoulder_y)]

/-- `postureguard.extract_metrics` (postureguard.py lines 42-78); its body is
textually identical to `posture_core.extract_metrics` (visibility literal 0.4
in place of the named constant, same value). -/
def app_extract_metrics (pose_landmarks : PoseLandmarks)
    (face_landmarks : Option FacePoints := none) : Option (List (String × ℚ)) :=
  let nose := pose_landmarks.nose
  let left_ear := pose_landmarks.left_ear
  let right_ear := pose_landmarks.right_ear
  let left_shoulder := pose_landmarks.left_shoulder
  let right_shoulder := pose_landmarks.right_shoulder
  if [nose, left_ear, right_ear, left_shoulder, right_shoulder].any
      (fun p => p.visibility < 0.4) then
    none
  else
    let mid_shoulder_y := (left_shoulder.y + right_shoulder.y) / 2
    let mid_shoulder_x := (left_shoulder.x + right_shoulder.x) / 2
    let mid_ear_y := (left_ear.y + right_ear.y) / 2
    let face_tilt : ℚ := match face_landmarks with
      | none => 0
      | some f => f.forehead.x - f.chin.x
    let face_forward_ratio : ℚ := match face_landmarks with
      | none => 0
      | some f => |f.left_cheek.x - f.right_cheek.x|
    some [("nose_to_shoulder_y", nose.y - mid_shoulder_y),
          ("nose_to_shoulder_x", nose.x - mid_shoulder_x),
          ("ear_shoulder_dist", mid_shoulder_y - mid_ear_y),
          ("shoulder_tilt", left_shoulder.y - right_shoulder.y),
          ("nose_to_ear_y", nose.y - mid_ear_y),
          ("face_tilt", face_tilt),
          ("face_forward_ratio", face_forward_ratio),
          ("nose_y", nose.y),
          ("mid_ear_y", mid_ear_y),
          ("mid_shoulder_y", mid_shoulder_y)]

/-- `camera_preview.extract_metrics` (camera_preview.py lines 31-60).
This variant's returned dict has only seven entries: it omits
`nose_y`, `mid_ear_y` and `mid_shoulder_y`. -/
def preview_extract_metrics (pose_landmarks : PoseLandmarks)
    (face_landmarks : Option FacePoints := none) : Option (List (String × ℚ)) :=
  let nose := pose_landmarks.nose
  let left_ear := pose_landmarks.left_ear
  let right_ear := pose_landmarks.right_ear
  let left_shoulder := pose_landmarks.left_shoulder
  let right_shoulder := pose_landmarks.right_shoulder
  if [nose, left_ear, right_ear, left_shoulder, right_shoulder].any
      (fun p => p.visibility < 0.4) then
    none
  else
    let mid_shoulder_y := (left_shoulder.y + right_shoulder.y) / 2
    let mid_shoulder_x := (left_shoulder.x + right_shoulder.x) / 2
    let mid_ear_y := (left_ear.y + right_ear.y) / 2
    let face_tilt : ℚ := match face_landmarks with
      | none => 0
      | some f => f.forehead.x - f.chin.x
    let face_forward_ratio : ℚ := match face_landmarks with
      | none => 0
      | some f => |f.left_cheek.x - f.right_cheek.x|
    some [("nose_to_shoulder_y", nose.y - mid_shoulder_y),
          ("nose_to_shoulder_x", nose.x - mid_shoulder_x),
          ("ear_shoulder_dist", mid_shoulder_y - mid_ear_y),
          ("shoulder_tilt", left_shoulder.y - right_shoulder.y),
          ("nose_to_ear_y", nose.y - mid_ear_y),
          ("face_tilt", face_tilt),
          ("face_forward_ratio", face_forward_ratio)]

/-- The ten metric keys, in the order `posture_core.extract_metrics`
produces them. -/
def TEN_KEYS : List String :=
  ["nose_to_shoulder_y", "nose_to_shoulder_x", "ear_shoulder_dist",
   "shoulder_tilt", "nose_to_ear_y", "face_tilt", "face_forward_ratio",
   "nose_y", "mid_ear_y", "mid_shoulder_y"]

/-- The seven metric keys `camera_preview.extract_metrics` produces. -/
def SEVEN_KEYS : List String :=
  ["nose_to_shoulder_y", "nose_to_shoulder_x", "ear_shoulder_dist",
   "shoulder_tilt", "nose_to_ear_y", "face_tilt", "face_forward_ratio"]

/-- At least one of the five required landmarks falls below the visibility
cutoff — the failure condition shared by all extractor variants. -/
def LowVis (pose : PoseLandmarks) : Prop :=
  pose.nose.visibility < MIN_VISIBILITY ∨
  pose.left_ear.visibility < MIN_VISIBILITY ∨
  pose.right_ear.visibility < MIN_VISIBILITY ∨
  pose.left_shoulder.visibility < MIN_VISIBILITY ∨
  pose.right_shoulder.visibility < MIN_VISIBILITY

/-- Arithmetic mean of a list of rationals (`np.mean`). -/
def meanOf (l : List ℚ) : ℚ := l.sum / l.length

/-- `posture_core.average_metrics` (lines 206-211): the baseline maps every
metric key to the mean of that key over the supplied frames. -/
def average_metrics (frames : List MetricVector) : MetricVector :=
  { nose_to_shoulder_y := meanOf (frames.map MetricVector.nose_to_shoulder_y),
    nose_to_shoulder_x := meanOf (frames.map MetricVector.nose_to_shoulder_x),
    ear_shoulder_dist := meanOf (frames.map MetricVector.ear_shoulder_dist),
    shoulder_tilt := meanOf (frames.map MetricVector.shoulder_tilt),
    nose_to_ear_y := meanOf (frames.map MetricVector.nose_to_ear_y),
    face_tilt := meanOf (frames.map MetricVector.face_tilt),
    face_forward_ratio := meanOf (frames.map MetricVector.face_forward_ratio),
    nose_y := meanOf (frames.map MetricVector.nose_y),
    mid_ear_y := meanOf (frames.map MetricVector.mid_ear_y),
    mid_shoulder_y := meanOf (frames.map MetricVector.mid_shoulder_y) }

/-- The calibration tail of `PostureGuardApp.calibrate._do_calibrate`
(postureguard.py lines 324-337): with fewer than 10 gathered frames it
reports failure and leaves `self.baseline` untouched; otherwise it averages
the frames key-by-key into the new baseline.  The returned pair is
(resulting baseline, whether calibration succeeded). -/
def doCalibrate (prior : Option MetricVector) (frames : List MetricVector) :
    Option MetricVector × Bool :=
  if frames.length < 10 then (prior, false)
  else (some (average_metrics frames), true)

/-- `posture_core.smooth_score` (lines 214-222): append the new score, pop
the oldest entry once the length exceeds `max_len`, and return the Python
`int` of the mean of the resulting history.  The mutated history is returned
alongside the smoothed value. -/
def smooth_score (score_history : List ℚ) (new_score : ℚ) (max_len : ℕ := 20) :
    List ℚ × ℤ :=
  let h := score_history ++ [new_score]
  let h2 := if h.length > max_len then h.tail else h
  (h2, pyTrunc (meanOf h2))

/-- The alerting state carried by `PostureGuardApp` across monitor-loop
ticks: `bad_posture_start` (`None` initially) and `last_yell_time`
(`0` initially). -/
structure AlertState where
  bad_posture_start : Option ℚ
  last_yell_time : ℚ
deriving DecidableEq, Repr

/-- One pass of the yell logic at the end of `_monitor_loop`
(postureguard.py lines 409-422), given whether the issues list is non-empty
and the current time.  Returns the updated state and whether an alert fired. -/
def yellStep (issuesNonempty : Bool) (now : ℚ) (s : AlertState) :
    AlertState × Bool :=
  if issuesNonempty then
    match s.bad_posture_start with
    | none => ({ s with bad_posture_start := some now }, false)
    | some t0 =>
      if now - t0 > BAD_POSTURE_SECONDS ∧ now - s.last_yell_time > COOLDOWN_SECONDS then
        ({ s with last_yell_time := now }, true)
      else (s, false)
  else ({ s with bad_posture_start := none }, false)

/-- Iterate `yellStep` over a list of ticks (issues-nonempty flag, time),
counting the alerts fired. -/
def yellRun (s : AlertState) : List (Bool × ℚ) → AlertState × ℕ
  | [] => (s, 0)
  | (b, t) :: rest =>
    let r := yellStep b t s
    let rr := yellRun r.1 rest
    (rr.1, (if r.2 then 1 else 0) + rr.2)

/-! ### Per-check decomposition of `compare_to_baseline`

Each `if` block of the source is named as a standalone penalty term and
issue-list fragment; `compare_to_baseline` is definitionally the sum /
concatenation of these, which the lemma `compare_eq_decomposition` records. -/

/-- Penalty contribution of the head-drop check (posture_core.py 149-153). -/
def headDropPen (c b : MetricVector) (th : Option ThresholdSet) : ℚ :=
  if c.nose_to_shoulder_y - b.nose_to_shoulder_y > tHead th then
    min 1 ((c.nose_to_shoulder_y - b.nose_to_shoulder_y) / (tHead th * 3)) * WEIGHT_HEAD_DROP
  else 0

/-- Issue fragment of the head-drop check. -/
def headDropIssue (c b : MetricVector) (th : Option ThresholdSet) : List (String × ℚ) :=
  if c.nose_to_shoulder_y - b.nose_to_shoulder_y > tHead th then
    [("Head dropping — chin up!", c.nose_to_shoulder_y - b.nose_to_shoulder_y)]
  else []

/-- Penalty contribution of the slouch check (posture_core.py 156-160). -/
def slouchPen (c b : MetricVector) (th : Option ThresholdSet) : ℚ :=
  if b.ear_shoulder_dist - c.ear_shoulder_dist > tSlouch th then
    min 1 ((b.ear_shoulder_dist - c.ear_shoulder_dist) / (tSlouch th * 3)) * WEIGHT_SLOUCH
  else 0

/-- Issue fragment of the slouch check. -/
def slouchIssue (c b : MetricVector) (th : Option ThresholdSet) : List (String × ℚ) :=
  if b.ear_shoulder_dist - c.ear_shoulder_dist > tSlouch th then
    [("Slouching — sit up straight!", b.ear_shoulder_dist - c.ear_shoulder_dist)]
  else []

/-- Penalty contribution of the lateral-lean check (posture_core.py 163-170). -/
def lateralPen (c b : MetricVector) (th : Option ThresholdSet) : ℚ :=
  if |c.nose_to_shoulder_x - b.nose_to_shoulder_x| > tLateral th then
    min 1 (|c.nose_to_shoulder_x - b.nose_to_shoulder_x| / (tLateral th * 3)) * WEIGHT_LEAN
  else 0

/-- Issue fragment of the lateral-lean check. -/
def lateralIssue (c b : MetricVector) (th : Option ThresholdSet) : List (String × ℚ) :=
  if |c.nose_to_shoulder_x - b.nose_to_shoulder_x| > tLateral th then
    [("Leaning " ++
        (if c.nose_to_shoulder_x - b.nose_to_shoulder_x < 0 then "left" else "right") ++
        " — center up!", |c.nose_to_shoulder_x - b.nose_to_shoulder_x|)]
  else []

/-- Penalty contribution of the shoulder-tilt check (posture_core.py 173-178). -/
def shoulderPen (c b : MetricVector) (th : Option ThresholdSet) : ℚ :=
  if |c.shoulder_tilt| > tShoulder th then
    (if |c.shoulder_tilt| - |b.shoulder_tilt| > 0.01 then
      min 1 (|c.shoulder_tilt| / (tShoulder th * 3)) * WEIGHT_SHOULDER
    else 0)
  else 0

/-- Issue fragment of the shoulder-tilt check. -/
def shoulderIssue (c b : MetricVector) (th : Option ThresholdSet) : List (String × ℚ) :=
  if |c.shoulder_tilt| > tShoulder th then
    (if |c.shoulder_tilt| - |b.shoulder_tilt| > 0.01 then
      [("Shoulders uneven — level out!", |c.shoulder_tilt|)]
    else [])
  else []

/-- Penalty contribution of the forward-lean check (posture_core.py 181-186);
its severity uses a fixed `0.09` scale, not a threshold. -/
def forwardPen (c b : MetricVector) : ℚ :=
  if c.face_forward_ratio > 0 ∧ b.face_forward_ratio > 0 then
    (if c.face_forward_ratio - b.face_forward_ratio > 0.03 then
      min 1 ((c.face_forward_ratio - b.face_forward_ratio) / 0.09) * WEIGHT_FORWARD
    else 0)
  else 0

/-- Issue fragment of the forward-lean check. -/
def forwardIssue (c b : MetricVector) : List (String × ℚ) :=
  if c.face_forward_ratio > 0 ∧ b.face_forward_ratio > 0 then
    (if c.face_forward_ratio - b.face_forward_ratio > 0.03 then
      [("Leaning forward — sit back!", c.face_forward_ratio - b.face_forward_ratio)]
    else [])
  else []

/-- The cumulative penalty accumulated by `compare_to_baseline`. -/
def penaltyOf (c b : MetricVector) (th : Option ThresholdSet) : ℚ :=
  headDropPen c b th + slouchPen c b th + lateralPen c b th +
    shoulderPen c b th + forwardPen c b

/-- All four resolved thresholds are positive (the spec's well-formedness
condition on a `ThresholdSet`). -/
def PosThresholds (th : Option ThresholdSet) : Prop :=
  0 < tHead th ∧ 0 < tSlouch th ∧ 0 < tLateral th ∧ 0 < tShoulder th

/-- Trigger condition of check `i` of `compare_to_baseline`, in source order:
0 = head drop, 1 = slouch, 2 = lateral lean, 3 = shoulder tilt,
4 = forward lean. -/
def trigOf (i : Fin 5) (c b : MetricVector) (th : Option ThresholdSet) : Bool :=
  match i with
  | 0 => c.nose_to_shoulder_y - b.nose_to_shoulder_y > tHead th
  | 1 => b.ear_shoulder_dist - c.ear_shoulder_dist > tSlouch th
  | 2 => |c.nose_to_shoulder_x - b.nose_to_shoulder_x| > tLateral th
  | 3 => |c.shoulder_tilt| > tShoulder th ∧ |c.shoulder_tilt| - |b.shoulder_tilt| > 0.01
  | 4 => (c.face_forward_ratio > 0 ∧ b.face_forward_ratio > 0) ∧
         c.face_forward_ratio - b.face_forward_ratio > 0.03

/-- Penalty contribution of check `i`, indexed to match `trigOf`. -/
def penOf (i : Fin 5) (c b : MetricVector) (th : Option ThresholdSet) : ℚ :=
  match i with
  | 0 => headDropPen c b th
  | 1 => slouchPen c b th
  | 2 => lateralPen c b th
  | 3 => shoulderPen c b th
  | 4 => forwardPen c b

/-- Remove the deviation feeding check `i`: set the single metric that check
reads in `current` back to its baseline value.  The five checks read five
pairwise distinct metrics. -/
def removeDev (i : Fin 5) (c b : MetricVector) : MetricVector :=
  match i with
  | 0 => { c with nose_to_shoulder_y := b.nose_to_shoulder_y }
  | 1 => { c with ear_shoulder_dist := b.ear_shoulder_dist }
  | 2 => { c with nose_to_shoulder_x := b.nose_to_shoulder_x }
  | 3 => { c with shoulder_tilt := b.shoulder_tilt }
  | 4 => { c with face_forward_ratio := b.face_forward_ratio }

/-! ### Concrete inputs used by counterexamples and witnesses -/

/-- The all-zero metric vector. -/
def zeroMV : MetricVector := ⟨0, 0, 0, 0, 0, 0, 0, 0, 0, 0⟩

/-- A current vector whose only deviation from `zeroMV` is a head drop of
`0.0408`, giving penalty `10.2`. -/
def c1current : MetricVector := { zeroMV with nose_to_shoulder_y := 51 / 1250 }

/-- A fully visible landmark. -/
def goodLm : Landmark := ⟨1/2, 1/2, 1⟩

/-- A snapshot whose five required landmarks are all fully visible. -/
def goodPose : PoseLandmarks := ⟨goodLm, goodLm, goodLm, goodLm, goodLm⟩

/-- A snapshot whose nose landmark is below the visibility cutoff. -/
def lowVisPose : PoseLandmarks := ⟨⟨1/2, 1/2, 1/10⟩, goodLm, goodLm, goodLm, goodLm⟩

/-- A current vector triggering exactly the head-drop and slouch checks
against `zeroMV` under the default thresholds. -/
def c6current : MetricVector :=
  { zeroMV with nose_to_shoulder_y := 1/5, ear_shoulder_dist := -(1/5) }

/-- A representative metric vector with distinct field values. -/
def sampleMV : MetricVector :=
  ⟨-(1/4), 0, 9/50, 0, -(1/20), 0, 3/25, 7/20, 2/5, 3/5⟩

/-! ### Foundational lemmas -/

lemma pyTrunc_of_nonneg {q : ℚ} (h : 0 ≤ q) : pyTrunc q = ⌊q⌋ :=
  if_neg (not_lt.mpr h)

lemma pyTrunc_mono {a b : ℚ} (h : a ≤ b) : pyTrunc a ≤ pyTrunc b := by
  unfold pyTrunc
  split_ifs with ha hb hb
  · exact Int.ceil_le_ceil h
  · calc ⌈a⌉ ≤ 0 := Int.ceil_le.mpr (by exact_mod_cast ha.le)
      _ ≤ ⌊b⌋ := Int.le_floor.mpr (by exact_mod_cast not_lt.mp hb)
  · exact absurd (h.trans_lt hb) ha
  · exact Int.floor_le_floor h

lemma pyTrunc_hundred : pyTrunc 100 = 100 := by
  rw [pyTrunc_of_nonneg (by norm_num)]
  norm_num

/-- The common shape of checks 1-3: a penalty contribution is non-negative. -/
lemma checkPen_nonneg {d t w : ℚ} (ht : 0 < t) (hw : 0 ≤ w) :
    0 ≤ (if d > t then min 1 (d / (t * 3)) * w else 0) := by
  split_ifs with h
  · exact mul_nonneg (le_min (by norm_num) (div_nonneg (ht.trans h).le (by positivity))) hw
  · exact le_rfl

/-- A penalty contribution never exceeds its weight. -/
lemma checkPen_le {d t w : ℚ} (hw : 0 ≤ w) :
    (if d > t then min 1 (d / (t * 3)) * w else 0) ≤ w := by
  split_ifs with h
  · calc min 1 (d / (t * 3)) * w ≤ 1 * w :=
        mul_le_mul_of_nonneg_right (min_le_left _ _) hw
      _ = w := one_mul w
  · exact hw

/-- A triggered check contributes strictly more than a third of its weight. -/
lemma checkPen_gt {d t w : ℚ} (ht : 0 < t) (hw : 0 < w) (hd : d > t) :
    w / 3 < (if d > t then min 1 (d / (t * 3)) * w else 0) := by
  rw [if_pos hd]
  have h3 : (1 : ℚ) / 3 < min 1 (d / (t * 3)) := by
    apply lt_min (by norm_num)
    rw [div_lt_div_iff₀ (by norm_num : (0:ℚ) < 3) (by positivity)]
    linarith
  calc w / 3 = (1 / 3) * w := by ring
    _ < min 1 (d / (t * 3)) * w := mul_lt_mul_of_pos_right h3 hw

/-- Raising the threshold never raises a check's penalty contribution. -/
lemma checkPen_mono {d w : ℚ} (hw : 0 ≤ w) {t t' : ℚ} (ht : 0 < t) (htt : t ≤ t') :
    (if d > t' then min 1 (d / (t' * 3)) * w else 0) ≤
      (if d > t then min 1 (d / (t * 3)) * w else 0) := by
  split_ifs with h' h h
  · apply mul_le_mul_of_nonneg_right _ hw
    apply min_le_min le_rfl
    apply div_le_div_of_nonneg_left (ht.trans (htt.trans_lt h')).le (by positivity)
    linarith
  · exact absurd (htt.trans_lt h') h
  · exact mul_nonneg (le_min (by norm_num) (div_nonneg (ht.trans h).le (by positivity))) hw
  · exact le_rfl

/-- `checkPen_mono` through an extra threshold-independent guard
(the shoulder-tilt check's `tilt_diff > 0.01`). -/
lemma checkPen2_mono {d w : ℚ} (g : Prop) [Decidable g] (hw : 0 ≤ w)
    {t t' : ℚ} (ht : 0 < t) (htt : t ≤ t') :
    (if d > t' then (if g then min 1 (d / (t' * 3)) * w else 0) else 0) ≤
      (if d > t then (if g then min 1 (d / (t * 3)) * w else 0) else 0) := by
  by_cases hg : g
  · simp only [if_pos hg]
    exact checkPen_mono hw ht htt
  · simp only [if_neg hg, ite_self]
    exact le_rfl

/-- `compare_to_baseline` is the concatenation of the five issue fragments
paired with the clamped, truncated score over the summed penalty. -/
lemma compare_eq_decomposition (c b : MetricVector) (th : Option ThresholdSet) :
    compare_to_baseline c b th =
      (headDropIssue c b th ++ slouchIssue c b th ++ lateralIssue c b th ++
        shoulderIssue c b th ++ forwardIssue c b,
       max 0 (pyTrunc (100 - penaltyOf c b th))) := rfl

lemma headDropPen_nonneg {c b : MetricVector} {th : Option ThresholdSet}
    (h : 0 < tHead th) : 0 ≤ headDropPen c b th := by
  unfold headDropPen
  exact checkPen_nonneg h (by norm_num [WEIGHT_HEAD_DROP])

lemma slouchPen_nonneg {c b : MetricVector} {th : Option ThresholdSet}
    (h : 0 < tSlouch th) : 0 ≤ slouchPen c b th := by
  unfold slouchPen
  exact checkPen_nonneg h (by norm_num [WEIGHT_SLOUCH])

lemma lateralPen_nonneg {c b : MetricVector} {th : Option ThresholdSet}
    (h : 0 < tLateral th) : 0 ≤ lateralPen c b th := by
  unfold lateralPen
  exact checkPen_nonneg h (by norm_num [WEIGHT_LEAN])

lemma shoulderPen_nonneg {c b : MetricVector} {th : Option ThresholdSet}
    (h : 0 < tShoulder th) : 0 ≤ shoulderPen c b th := by
  unfold shoulderPen
  split_ifs with h1 h2
  · exact mul_nonneg (le_min (by norm_num) (div_nonneg (abs_nonneg _) (by positivity)))
      (by norm_num [WEIGHT_SHOULDER])
  · exact le_rfl
  · exact le_rfl

lemma forwardPen_nonneg {c b : MetricVector} : 0 ≤ forwardPen c b := by
  unfold forwardPen
  split_ifs with h1 h2
  · have hd : (0:ℚ) ≤ c.face_forward_ratio - b.face_forward_ratio := by linarith
    exact mul_nonneg (le_min (by norm_num) (div_nonneg hd (by norm_num)))
      (by norm_num [WEIGHT_FORWARD])
  · exact le_rfl
  · exact le_rfl

lemma headDropPen_le (c b : MetricVector) (th : Option ThresholdSet) :
    headDropPen c b th ≤ WEIGHT_HEAD_DROP := by
  unfold headDropPen
  exact checkPen_le (by norm_num [WEIGHT_HEAD_DROP])

lemma slouchPen_le (c b : MetricVector) (th : Option ThresholdSet) :
    slouchPen c b th ≤ WEIGHT_SLOUCH := by
  unfold slouchPen
  exact checkPen_le (by norm_num [WEIGHT_SLOUCH])

lemma lateralPen_le (c b : MetricVector) (th : Option ThresholdSet) :
    lateralPen c b th ≤ WEIGHT_LEAN := by
  unfold lateralPen
  exact checkPen_le (by norm_num [WEIGHT_LEAN])

lemma shoulderPen_le (c b : MetricVector) (th : Option ThresholdSet) :
    shoulderPen c b th ≤ WEIGHT_SHOULDER := by
  unfold shoulderPen
  split_ifs with h1 h2
  · calc min 1 (|c.shoulder_tilt| / (tShoulder th * 3)) * WEIGHT_SHOULDER
        ≤ 1 * WEIGHT_SHOULDER :=
        mul_le_mul_of_nonneg_right (min_le_left _ _) (by norm_num [WEIGHT_SHOULDER])
      _ = WEIGHT_SHOULDER := one_mul _
  · norm_num [WEIGHT_SHOULDER]
  · norm_num [WEIGHT_SHOULDER]

lemma forwardPen_le (c b : MetricVector) : forwardPen c b ≤ WEIGHT_FORWARD := by
  unfold forwardPen
  split_ifs with h1 h2
  · calc min 1 ((c.face_forward_ratio - b.face_forward_ratio) / 0.09) * WEIGHT_FORWARD
        ≤ 1 * WEIGHT_FORWARD :=
        mul_le_mul_of_nonneg_right (min_le_left _ _) (by norm_num [WEIGHT_FORWARD])
      _ = WEIGHT_FORWARD := one_mul _
  · norm_num [WEIGHT_FORWARD]
  · norm_num [WEIGHT_FORWARD]

lemma penaltyOf_nonneg {c b : MetricVector} {th : Option ThresholdSet}
    (hpos : PosThresholds th) : 0 ≤ penaltyOf c b th := by
  obtain ⟨h1, h2, h3, h4⟩ := hpos
  unfold penaltyOf
  have := headDropPen_nonneg (c := c) (b := b) h1
  have := slouchPen_nonneg (c := c) (b := b) h2
  have := lateralPen_nonneg (c := c) (b := b) h3
  have := shoulderPen_nonneg (c := c) (b := b) h4
  have := forwardPen_nonneg (c := c) (b := b)
  linarith

lemma score_mono_penalty {p p' : ℚ} (h : p' ≤ p) :
    max 0 (pyTrunc (100 - p)) ≤ max 0 (pyTrunc (100 - p')) :=
  max_le_max le_rfl (pyTrunc_mono (by linarith))

/-! ### C7 — identity -/

/-- C7: comparing a baseline against itself, under any positive threshold
set, yields an empty issues list and score exactly 100 — in particular also
when the baseline's own shoulder tilt exceeds the shoulder-tilt threshold. -/
theorem compare_identity (b : MetricVector) (th : Option ThresholdSet)
    (hpos : PosThresholds th) :
    compare_to_baseline b b th = ([], 100) := by
  obtain ⟨h1, h2, h3, h4⟩ := hpos
  rw [compare_eq_decomposition]
  norm_num [headDropIssue, slouchIssue, lateralIssue, shoulderIssue, forwardIssue,
    penaltyOf, headDropPen, slouchPen, lateralPen, shoulderPen, forwardPen,
    sub_self, abs_zero, h1.not_lt, h2.not_lt, h3.not_lt, h4.not_lt, pyTrunc_hundred]

/-- Witness for C7 at a concrete baseline and the default thresholds. -/
theorem compare_identity_witness :
    compare_to_baseline sampleMV sampleMV none = ([], 100) :=
  compare_identity sampleMV none
    (by norm_num [PosThresholds, tHead, tSlouch, tLateral, tShoulder,
      THRESH_HEAD_DROP, THRESH_SLOUCH, THRESH_HEAD_FORWARD, THRESH_SHOULDER_TILT])

/-! ### C10 — default thresholds coincide with the medium preset -/

/-- C10: calling `compare_to_baseline` with thresholds omitted gives exactly
the result of calling it with the `medium` preset, because the module-level
default thresholds coincide field-for-field with that preset. -/
theorem default_thresholds_are_medium :
    (∀ c b : MetricVector,
        compare_to_baseline c b none =
          compare_to_baseline c b (SENSITIVITY_PRESETS "medium"))
    ∧ tHead (SENSITIVITY_PRESETS "medium") = THRESH_HEAD_DROP
    ∧ tSlouch (SENSITIVITY_PRESETS "medium") = THRESH_SLOUCH
    ∧ tLateral (SENSITIVITY_PRESETS "medium") = THRESH_HEAD_FORWARD
    ∧ tShoulder (SENSITIVITY_PRESETS "medium") = THRESH_SHOULDER_TILT :=
  ⟨fun _ _ => rfl, rfl, rfl, rfl, rfl⟩

/-! ### C8 — guarded forward lean -/

/-- C8: if the baseline's `face_forward_ratio` is `0` (which is also what
`baseline.get("face_forward_ratio", 0)` yields when the key is absent),
`compare_to_baseline` adds no forward-lean penalty and emits no
forward-lean issue, whatever the current vector and thresholds. -/
theorem forward_lean_guard (c b : MetricVector) (th : Option ThresholdSet)
    (hb : b.face_forward_ratio = 0) :
    forwardPen c b = 0 ∧
      ∀ p ∈ (compare_to_baseline c b th).1, p.1 ≠ "Leaning forward — sit back!" := by
  have hfp : forwardPen c b = 0 := by simp [forwardPen, hb]
  have hfi : forwardIssue c b = [] := by simp [forwardIssue, hb]
  refine ⟨hfp, ?_⟩
  intro p hp
  rw [compare_eq_decomposition] at hp
  simp only [hfi, List.append_nil, List.mem_append] at hp
  rcases hp with ((hp | hp) | hp) | hp
  · unfold headDropIssue at hp
    split_ifs at hp
    · simp only [List.mem_singleton] at hp
      subst hp
      simp
    · simp at hp
  · unfold slouchIssue at hp
    split_ifs at hp
    · simp only [List.mem_singleton] at hp
      subst hp
      simp
    · simp at hp
  · unfold lateralIssue at hp
    split_ifs at hp
    · simp only [List.mem_singleton] at hp
      subst hp
      simp
    · simp only [List.mem_singleton] at hp
      subst hp
      simp
    · simp at hp
  · unfold shoulderIssue at hp
    split_ifs at hp
    · simp only [List.mem_singleton] at hp
      subst hp
      simp
    · simp at hp
    · simp at hp

/-- Witness for C8 at a concrete pair whose current vector leans far
forward while the baseline has no face data. -/
theorem forward_lean_guard_witness :
    forwardPen { zeroMV with face_forward_ratio := 1 } zeroMV = 0 ∧
      ∀ p ∈ (compare_to_baseline { zeroMV with face_forward_ratio := 1 } zeroMV none).1,
        p.1 ≠ "Leaning forward — sit back!" :=
  forward_lean_guard { zeroMV with face_forward_ratio := 1 } zeroMV none (by simp [zeroMV])

lemma posThresholds_none : PosThresholds none := by
  norm_num [PosThresholds, tHead, tSlouch, tLateral, tShoulder,
    THRESH_HEAD_DROP, THRESH_SLOUCH, THRESH_HEAD_FORWARD, THRESH_SHOULDER_TILT]

lemma presets_low_resolved :
    tHead (SENSITIVITY_PRESETS "low") = 0.06
    ∧ tSlouch (SENSITIVITY_PRESETS "low") = 0.09
    ∧ tLateral (SENSITIVITY_PRESETS "low") = 0.045
    ∧ tShoulder (SENSITIVITY_PRESETS "low") = 0.04 :=
  ⟨rfl, rfl, rfl, rfl⟩

lemma presets_medium_resolved :
    tHead (SENSITIVITY_PRESETS "medium") = 0.04
    ∧ tSlouch (SENSITIVITY_PRESETS "medium") = 0.06
    ∧ tLateral (SENSITIVITY_PRESETS "medium") = 0.03
    ∧ tShoulder (SENSITIVITY_PRESETS "medium") = 0.025 :=
  ⟨rfl, rfl, rfl, rfl⟩

lemma presets_high_resolved :
    tHead (SENSITIVITY_PRESETS "high") = 0.025
    ∧ tSlouch (SENSITIVITY_PRESETS "high") = 0.04
    ∧ tLateral (SENSITIVITY_PRESETS "high") = 0.02
    ∧ tShoulder (SENSITIVITY_PRESETS "high") = 0.015 :=
  ⟨rfl, rfl, rfl, rfl⟩

lemma posThresholds_low : PosThresholds (SENSITIVITY_PRESETS "low") := by
  unfold PosThresholds
  rw [presets_low_resolved.1, presets_low_resolved.2.1,
    presets_low_resolved.2.2.1, presets_low_resolved.2.2.2]
  norm_num

lemma posThresholds_medium : PosThresholds (SENSITIVITY_PRESETS "medium") := by
  unfold PosThresholds
  rw [presets_medium_resolved.1, presets_medium_resolved.2.1,
    presets_medium_resolved.2.2.1, presets_medium_resolved.2.2.2]
  norm_num

lemma posThresholds_high : PosThresholds (SENSITIVITY_PRESETS "high") := by
  unfold PosThresholds
  rw [presets_high_resolved.1, presets_high_resolved.2.1,
    presets_high_resolved.2.2.1, presets_high_resolved.2.2.2]
  norm_num

/-! ### C1 — score formula, per-check caps, score bounds -/

/-- C1 (amended): for positive thresholds, the returned score is `max 0` of
the truncation toward zero of `100 − penalty` (Python's `int(100 - penalty)`,
i.e. `100 − ⌈penalty⌉` for `penalty ≤ 100`) — not `100 − round(penalty)`;
the penalty is the additive sum of the five per-check contributions; no
check's contribution exceeds its fixed weight (30, 35, 20, 20, 25); and the
returned score is an integer in [0, 100]. -/
theorem compare_score_formula (c b : MetricVector) (th : Option ThresholdSet)
    (hpos : PosThresholds th) :
    (compare_to_baseline c b th).2 = max 0 (pyTrunc (100 - penaltyOf c b th))
    ∧ penaltyOf c b th = headDropPen c b th + slouchPen c b th + lateralPen c b th
        + shoulderPen c b th + forwardPen c b
    ∧ headDropPen c b th ≤ WEIGHT_HEAD_DROP
    ∧ slouchPen c b th ≤ WEIGHT_SLOUCH
    ∧ lateralPen c b th ≤ WEIGHT_LEAN
    ∧ shoulderPen c b th ≤ WEIGHT_SHOULDER
    ∧ forwardPen c b ≤ WEIGHT_FORWARD
    ∧ 0 ≤ (compare_to_baseline c b th).2
    ∧ (compare_to_baseline c b th).2 ≤ 100 := by
  have hsnd : (compare_to_baseline c b th).2 = max 0 (pyTrunc (100 - penaltyOf c b th)) := by
    rw [compare_eq_decomposition]
  refine ⟨hsnd, rfl, headDropPen_le c b th, slouchPen_le c b th, lateralPen_le c b th,
    shoulderPen_le c b th, forwardPen_le c b, ?_, ?_⟩
  · rw [hsnd]
    exact le_max_left _ _
  · rw [hsnd]
    have h0 : 0 ≤ penaltyOf c b th := penaltyOf_nonneg hpos
    have h1 : pyTrunc (100 - penaltyOf c b th) ≤ pyTrunc 100 := pyTrunc_mono (by linarith)
    rw [pyTrunc_hundred] at h1
    exact max_le (by norm_num) h1

/-- Witness for C1's amended theorem at a concrete input. -/
theorem compare_score_formula_witness :
    (compare_to_baseline c1current zeroMV none).2 =
      max 0 (pyTrunc (100 - penaltyOf c1current zeroMV none))
    ∧ 0 ≤ (compare_to_baseline c1current zeroMV none).2
    ∧ (compare_to_baseline c1current zeroMV none).2 ≤ 100 :=
  ⟨(compare_score_formula c1current zeroMV none posThresholds_none).1,
   (compare_score_formula c1current zeroMV none posThresholds_none).2.2.2.2.2.2.2.1,
   (compare_score_formula c1current zeroMV none posThresholds_none).2.2.2.2.2.2.2.2⟩

/-- C1 as stated is false at this input: the only triggered check is a head
drop of `0.0408` against the default `0.04` threshold, so the penalty is
`10.2`; the code returns `int(100 − 10.2) = 89` while the claimed
`max(0, 100 − round(10.2))` is `90`. -/
theorem score_rounding_counterexample :
    (compare_to_baseline c1current zeroMV none).2 = 89
    ∧ penaltyOf c1current zeroMV none = 51 / 5
    ∧ max 0 (100 - round (penaltyOf c1current zeroMV none)) = 90 := by
  have hpen : penaltyOf c1current zeroMV none = 51 / 5 := by
    norm_num [penaltyOf, headDropPen, slouchPen, lateralPen, shoulderPen, forwardPen,
      c1current, zeroMV, tHead, tSlouch, tLateral, tShoulder,
      THRESH_HEAD_DROP, THRESH_SLOUCH, THRESH_HEAD_FORWARD, THRESH_SHOULDER_TILT,
      WEIGHT_HEAD_DROP, WEIGHT_SLOUCH, WEIGHT_LEAN, WEIGHT_SHOULDER, WEIGHT_FORWARD]
  refine ⟨?_, hpen, ?_⟩
  · rw [compare_eq_decomposition, hpen]
    norm_num [pyTrunc]
  · rw [hpen, round_eq]
    norm_num

/-! ### C5 — sensitivity ordering -/

lemma penaltyOf_mono (c b : MetricVector) {th th' : Option ThresholdSet}
    (h1 : 0 < tHead th) (h2 : 0 < tSlouch th) (h3 : 0 < tLateral th) (h4 : 0 < tShoulder th)
    (g1 : tHead th ≤ tHead th') (g2 : tSlouch th ≤ tSlouch th')
    (g3 : tLateral th ≤ tLateral th') (g4 : tShoulder th ≤ tShoulder th') :
    penaltyOf c b th' ≤ penaltyOf c b th := by
  unfold penaltyOf headDropPen slouchPen lateralPen shoulderPen
  have m1 := checkPen_mono (d := c.nose_to_shoulder_y - b.nose_to_shoulder_y)
    (w := WEIGHT_HEAD_DROP) (by norm_num [WEIGHT_HEAD_DROP]) h1 g1
  have m2 := checkPen_mono (d := b.ear_shoulder_dist - c.ear_shoulder_dist)
    (w := WEIGHT_SLOUCH) (by norm_num [WEIGHT_SLOUCH]) h2 g2
  have m3 := checkPen_mono (d := |c.nose_to_shoulder_x - b.nose_to_shoulder_x|)
    (w := WEIGHT_LEAN) (by norm_num [WEIGHT_LEAN]) h3 g3
  have m4 := checkPen2_mono (|c.shoulder_tilt| - |b.shoulder_tilt| > 0.01)
    (d := |c.shoulder_tilt|) (w := WEIGHT_SHOULDER)
    (by norm_num [WEIGHT_SHOULDER]) h4 g4
  linarith

/-- C5: for every fixed (current, baseline) pair the score under the `low`
preset is ≥ the score under `medium`, which is ≥ the score under `high`;
and the preset table itself is ordered low ≥ medium ≥ high in each of the
four threshold fields. -/
theorem sensitivity_ordering :
    (∀ c b : MetricVector,
      (compare_to_baseline c b (SENSITIVITY_PRESETS "medium")).2 ≤
          (compare_to_baseline c b (SENSITIVITY_PRESETS "low")).2
        ∧ (compare_to_baseline c b (SENSITIVITY_PRESETS "high")).2 ≤
          (compare_to_baseline c b (SENSITIVITY_PRESETS "medium")).2)
    ∧ (tHead (SENSITIVITY_PRESETS "medium") ≤ tHead (SENSITIVITY_PRESETS "low")
      ∧ tSlouch (SENSITIVITY_PRESETS "medium") ≤ tSlouch (SENSITIVITY_PRESETS "low")
      ∧ tLateral (SENSITIVITY_PRESETS "medium") ≤ tLateral (SENSITIVITY_PRESETS "low")
      ∧ tShoulder (SENSITIVITY_PRESETS "medium") ≤ tShoulder (SENSITIVITY_PRESETS "low"))
    ∧ (tHead (SENSITIVITY_PRESETS "high") ≤ tHead (SENSITIVITY_PRESETS "medium")
      ∧ tSlouch (SENSITIVITY_PRESETS "high") ≤ tSlouch (SENSITIVITY_PRESETS "medium")
      ∧ tLateral (SENSITIVITY_PRESETS "high") ≤ tLateral (SENSITIVITY_PRESETS "medium")
      ∧ tShoulder (SENSITIVITY_PRESETS "high") ≤ tShoulder (SENSITIVITY_PRESETS "medium")) := by
  refine ⟨fun c b => ⟨?_, ?_⟩, ?_, ?_⟩
  · rw [compare_eq_decomposition c b (SENSITIVITY_PRESETS "medium"),
      compare_eq_decomposition c b (SENSITIVITY_PRESETS "low")]
    refine score_mono_penalty (penaltyOf_mono c b ?_ ?_ ?_ ?_ ?_ ?_ ?_ ?_) <;>
      simp only [presets_low_resolved.1, presets_medium_resolved.1, presets_low_resolved.2.1,
        presets_medium_resolved.2.1, presets_low_resolved.2.2.1, presets_medium_resolved.2.2.1,
        presets_low_resolved.2.2.2, presets_medium_resolved.2.2.2] <;> norm_num
  · rw [compare_eq_decomposition c b (SENSITIVITY_PRESETS "high"),
      compare_eq_decomposition c b (SENSITIVITY_PRESETS "medium")]
    refine score_mono_penalty (penaltyOf_mono c b ?_ ?_ ?_ ?_ ?_ ?_ ?_ ?_) <;>
      simp only [presets_high_resolved.1, presets_medium_resolved.1, presets_high_resolved.2.1,
        presets_medium_resolved.2.1, presets_high_resolved.2.2.1, presets_medium_resolved.2.2.1,
        presets_high_resolved.2.2.2, presets_medium_resolved.2.2.2] <;> norm_num
  · rw [presets_low_resolved.1, presets_medium_resolved.1, presets_low_resolved.2.1,
      presets_medium_resolved.2.1, presets_low_resolved.2.2.1, presets_medium_resolved.2.2.1,
      presets_low_resolved.2.2.2, presets_medium_resolved.2.2.2]
    norm_num
  · rw [presets_high_resolved.1, presets_medium_resolved.1, presets_high_resolved.2.1,
      presets_medium_resolved.2.1, presets_high_resolved.2.2.1, presets_medium_resolved.2.2.1,
      presets_high_resolved.2.2.2, presets_medium_resolved.2.2.2]
    norm_num

/-! ### C4 — calibration -/

/-- C4: calibration with fewer than 10 gathered frames fails (the
`InsufficientSamples` outcome) and the prior baseline, if any, is returned
unchanged; with at least 10 frames it succeeds and the produced baseline
maps every one of the ten metric keys to the arithmetic mean of that key
across all supplied frames. -/
theorem calibrate_insufficient_samples :
    (∀ (prior : Option MetricVector) (frames : List MetricVector),
      (frames.length < 10 → doCalibrate prior frames = (prior, false))
      ∧ (10 ≤ frames.length →
          doCalibrate prior frames = (some (average_metrics frames), true)))
    ∧ (∀ frames : List MetricVector,
        (average_metrics frames).nose_to_shoulder_y =
            meanOf (frames.map MetricVector.nose_to_shoulder_y)
        ∧ (average_metrics frames).nose_to_shoulder_x =
            meanOf (frames.map MetricVector.nose_to_shoulder_x)
        ∧ (average_metrics frames).ear_shoulder_dist =
            meanOf (frames.map MetricVector.ear_shoulder_dist)
        ∧ (average_metrics frames).shoulder_tilt =
            meanOf (frames.map MetricVector.shoulder_tilt)
        ∧ (average_metrics frames).nose_to_ear_y =
            meanOf (frames.map MetricVector.nose_to_ear_y)
        ∧ (average_metrics frames).face_tilt =
            meanOf (frames.map MetricVector.face_tilt)
        ∧ (average_metrics frames).face_forward_ratio =
            meanOf (frames.map MetricVector.face_forward_ratio)
        ∧ (average_metrics frames).nose_y =
            meanOf (frames.map MetricVector.nose_y)
        ∧ (average_metrics frames).mid_ear_y =
            meanOf (frames.map MetricVector.mid_ear_y)
        ∧ (average_metrics frames).mid_shoulder_y =
            meanOf (frames.map MetricVector.mid_shoulder_y)) := by
  refine ⟨fun prior frames => ⟨fun h => ?_, fun h => ?_⟩,
    fun frames => ⟨rfl, rfl, rfl, rfl, rfl, rfl, rfl, rfl, rfl, rfl⟩⟩
  · unfold doCalibrate
    rw [if_pos h]
  · unfold doCalibrate
    rw [if_neg (not_lt.mpr h)]

/-- Witness for C4 in both regimes: an empty gather fails and keeps the
prior baseline; a 10-frame gather succeeds with the averaged baseline. -/
theorem calibrate_insufficient_samples_witness :
    doCalibrate (some sampleMV) [] = (some sampleMV, false)
    ∧ doCalibrate none (List.replicate 10 sampleMV) =
        (some (average_metrics (List.replicate 10 sampleMV)), true) :=
  ⟨(calibrate_insufficient_samples.1 (some sampleMV) []).1 (by decide),
   (calibrate_insufficient_samples.1 none (List.replicate 10 sampleMV)).2 (by decide)⟩

/-! ### C9 — smoothing -/

/-- C9: `smooth_score` appends the raw score; it evicts exactly the single
oldest entry iff the appended length exceeds `max_len` (so the resulting
length is `min(previous length + 1, max_len)`); it returns the truncated
integer mean of the resulting history; and pushing `50` into
`[100, 100, 100, 100]` with `max_len = 5` returns `90`. -/
theorem smooth_score_spec (h : List ℚ) (s : ℚ) (max_len : ℕ)
    (hlen : h.length ≤ max_len) (hml : 1 ≤ max_len) :
    ((smooth_score h s max_len).1.length = min (h.length + 1) max_len
      ∧ (h.length + 1 ≤ max_len → (smooth_score h s max_len).1 = h ++ [s])
      ∧ (max_len < h.length + 1 → (smooth_score h s max_len).1 = (h ++ [s]).tail)
      ∧ (smooth_score h s max_len).2 = pyTrunc (meanOf (smooth_score h s max_len).1))
    ∧ (smooth_score [100, 100, 100, 100] 50 5).2 = 90 := by
  have hlen1 : (h ++ [s]).length = h.length + 1 := by simp
  constructor
  · refine ⟨?_, fun hle => ?_, fun hgt => ?_, rfl⟩
    · show (if (h ++ [s]).length > max_len then (h ++ [s]).tail else (h ++ [s])).length = _
      split_ifs with hc
      · rw [hlen1] at hc
        simp only [List.length_tail, hlen1]
        omega
      · rw [hlen1] at hc
        simp only [hlen1]
        omega
    · show (if (h ++ [s]).length > max_len then (h ++ [s]).tail else (h ++ [s])) = h ++ [s]
      rw [if_neg (by rw [hlen1]; omega : ¬ (h ++ [s]).length > max_len)]
    · show (if (h ++ [s]).length > max_len then (h ++ [s]).tail else (h ++ [s])) = (h ++ [s]).tail
      rw [if_pos (by rw [hlen1]; omega : (h ++ [s]).length > max_len)]
  · norm_num [smooth_score, meanOf, pyTrunc]

/-- Witness for C9 at the concrete smoothing example. -/
theorem smooth_score_spec_witness :
    (smooth_score [100, 100, 100, 100] 50 5).2 = 90
    ∧ (smooth_score [100, 100, 100, 100] 50 5).1.length = 5 :=
  ⟨(smooth_score_spec [100, 100, 100, 100] 50 5 (by decide) (by decide)).2,
   by simpa using (smooth_score_spec [100, 100, 100, 100] 50 5 (by decide) (by decide)).1.1⟩

/-! ### C2 — extraction visibility gate and the returned key sets -/

/-- C2 (amended): every extractor variant returns absent exactly when at
least one of the five required landmarks has visibility < 0.4.  Whenever a
metric vector is returned, the `posture_core` and `postureguard` variants
return all ten metric keys; the `camera_preview` variant returns exactly
the seven derived keys, without `nose_y`, `mid_ear_y`, `mid_shoulder_y`. -/
theorem extract_metrics_shape (pose : PoseLandmarks) (face : Option FacePoints) :
    (extract_metrics pose face = none ↔ LowVis pose)
    ∧ (app_extract_metrics pose face = none ↔ LowVis pose)
    ∧ (preview_extract_metrics pose face = none ↔ LowVis pose)
    ∧ (∀ m, extract_metrics pose face = some m → m.map Prod.fst = TEN_KEYS)
    ∧ (∀ m, app_extract_metrics pose face = some m → m.map Prod.fst = TEN_KEYS)
    ∧ (∀ m, preview_extract_metrics pose face = some m → m.map Prod.fst = SEVEN_KEYS) := by
  have hcond : ([pose.nose, pose.left_ear, pose.right_ear, pose.left_shoulder,
      pose.right_shoulder].any (fun p => p.visibility < MIN_VISIBILITY) = true) ↔
      LowVis pose := by
    simp [LowVis, List.any_cons, List.any_nil]
  have hcond04 : ([pose.nose, pose.left_ear, pose.right_ear, pose.left_shoulder,
      pose.right_shoulder].any (fun p => p.visibility < 0.4) = true) ↔
      LowVis pose := hcond
  refine ⟨?_, ?_, ?_, ?_, ?_, ?_⟩
  · constructor
    · intro hnone
      simp only [extract_metrics] at hnone
      split_ifs at hnone with h
      exact hcond.mp h
    · intro hv
      simp only [extract_metrics]
      rw [if_pos (hcond.mpr hv)]
  · constructor
    · intro hnone
      simp only [app_extract_metrics] at hnone
      split_ifs at hnone with h
      exact hcond04.mp h
    · intro hv
      simp only [app_extract_metrics]
      rw [if_pos (hcond04.mpr hv)]
  · constructor
    · intro hnone
      simp only [preview_extract_metrics] at hnone
      split_ifs at hnone with h
      exact hcond04.mp h
    · intro hv
      simp only [preview_extract_metrics]
      rw [if_pos (hcond04.mpr hv)]
  · intro m hm
    simp only [extract_metrics] at hm
    split_ifs at hm with h
    injection hm with hm
    subst hm
    rfl
  · intro m hm
    simp only [app_extract_metrics] at hm
    split_ifs at hm with h
    injection hm with hm
    subst hm
    rfl
  · intro m hm
    simp only [preview_extract_metrics] at hm
    split_ifs at hm with h
    injection hm with hm
    subst hm
    rfl

/-- C2 as stated is false for the `camera_preview` extractor variant: at a
fully visible snapshot it returns a metric vector whose key set is the
seven-element `SEVEN_KEYS`, which does not contain `nose_y`. -/
theorem preview_extract_missing_keys :
    (preview_extract_metrics goodPose none).map (List.map Prod.fst) = some SEVEN_KEYS
    ∧ ("nose_y" ∈ SEVEN_KEYS → False)
    ∧ ("mid_ear_y" ∈ SEVEN_KEYS → False)
    ∧ ("mid_shoulder_y" ∈ SEVEN_KEYS → False) := by
  refine ⟨?_, by decide, by decide, by decide⟩
  have hvis : ¬ ([goodPose.nose, goodPose.left_ear, goodPose.right_ear,
      goodPose.left_shoulder, goodPose.right_shoulder].any
        (fun p => p.visibility < 0.4) = true) := by
    norm_num [goodPose, goodLm, List.any_cons, List.any_nil]
  simp only [preview_extract_metrics]
  rw [if_neg hvis]
  rfl

/-- Witness for C2's amended theorem: a low-visibility snapshot extracts to
absent, and a fully visible snapshot extracts to a vector carrying the ten
keys (`posture_core` variant). -/
theorem extract_metrics_shape_witness :
    extract_metrics lowVisPose none = none
    ∧ [("nose_to_shoulder_y", (0:ℚ)), ("nose_to_shoulder_x", 0),
       ("ear_shoulder_dist", 0), ("shoulder_tilt", 0), ("nose_to_ear_y", 0),
       ("face_tilt", 0), ("face_forward_ratio", 0), ("nose_y", 1/2),
       ("mid_ear_y", 1/2), ("mid_shoulder_y", 1/2)].map Prod.fst = TEN_KEYS :=
  ⟨(extract_metrics_shape lowVisPose none).1.mpr
      (Or.inl (by norm_num [lowVisPose, MIN_VISIBILITY])),
   (extract_metrics_shape goodPose none).2.2.2.1 _ (by
      have hvis : ¬ ([goodPose.nose, goodPose.left_ear, goodPose.right_ear,
          goodPose.left_shoulder, goodPose.right_shoulder].any
            (fun p => p.visibility < MIN_VISIBILITY) = true) := by
        norm_num [goodPose, goodLm, MIN_VISIBILITY, List.any_cons, List.any_nil]
      simp only [extract_metrics]
      rw [if_neg hvis]
      norm_num [goodPose, goodLm])⟩

/-! ### C6 — compounding of two simultaneous issues -/

lemma penaltyOf_eq_sum (c b : MetricVector) (th : Option ThresholdSet) :
    penaltyOf c b th = ∑ k : Fin 5, penOf k c b th := by
  rw [Fin.sum_univ_five]
  rfl

lemma penOf_eq_zero_of_not_trig {c b : MetricVector} {th : Option ThresholdSet}
    (k : Fin 5) (h : trigOf k c b th = false) : penOf k c b th = 0 := by
  fin_cases k
  · simp only [trigOf, decide_eq_false_iff_not] at h
    simp [penOf, headDropPen, h]
  · simp only [trigOf, decide_eq_false_iff_not] at h
    simp [penOf, slouchPen, h]
  · simp only [trigOf, decide_eq_false_iff_not] at h
    simp [penOf, lateralPen, h]
  · simp only [trigOf, decide_eq_false_iff_not] at h
    show shoulderPen c b th = 0
    unfold shoulderPen
    split_ifs with hA hB
    · exact absurd ⟨hA, hB⟩ h
    · rfl
    · rfl
  · simp only [trigOf, decide_eq_false_iff_not] at h
    show forwardPen c b = 0
    unfold forwardPen
    split_ifs with hA hB
    · exact absurd ⟨hA, hB⟩ h
    · rfl
    · rfl

lemma penOf_nonneg {c b : MetricVector} {th : Option ThresholdSet}
    (hpos : PosThresholds th) (k : Fin 5) : 0 ≤ penOf k c b th := by
  obtain ⟨h1, h2, h3, h4⟩ := hpos
  fin_cases k
  · exact headDropPen_nonneg h1
  · exact slouchPen_nonneg h2
  · exact lateralPen_nonneg h3
  · exact shoulderPen_nonneg h4
  · exact forwardPen_nonneg

lemma penOf_le_35 {c b : MetricVector} {th : Option ThresholdSet} (k : Fin 5) :
    penOf k c b th ≤ 35 := by
  fin_cases k
  · have := headDropPen_le c b th
    rw [WEIGHT_HEAD_DROP] at this
    show headDropPen c b th ≤ 35
    linarith
  · have := slouchPen_le c b th
    rw [WEIGHT_SLOUCH] at this
    show slouchPen c b th ≤ 35
    linarith
  · have := lateralPen_le c b th
    rw [WEIGHT_LEAN] at this
    show lateralPen c b th ≤ 35
    linarith
  · have := shoulderPen_le c b th
    rw [WEIGHT_SHOULDER] at this
    show shoulderPen c b th ≤ 35
    linarith
  · have := forwardPen_le c b
    rw [WEIGHT_FORWARD] at this
    show forwardPen c b ≤ 35
    linarith

lemma penOf_gt_of_trig {c b : MetricVector} {th : Option ThresholdSet}
    (hpos : PosThresholds th) (k : Fin 5) (h : trigOf k c b th = true) :
    6 < penOf k c b th := by
  obtain ⟨h1, h2, h3, h4⟩ := hpos
  fin_cases k
  · simp only [trigOf, decide_eq_true_eq] at h
    have hg := checkPen_gt (w := WEIGHT_HEAD_DROP) h1 (by norm_num [WEIGHT_HEAD_DROP]) h
    rw [WEIGHT_HEAD_DROP] at hg
    show 6 < headDropPen c b th
    unfold headDropPen
    rw [WEIGHT_HEAD_DROP]
    linarith
  · simp only [trigOf, decide_eq_true_eq] at h
    have hg := checkPen_gt (w := WEIGHT_SLOUCH) h2 (by norm_num [WEIGHT_SLOUCH]) h
    rw [WEIGHT_SLOUCH] at hg
    show 6 < slouchPen c b th
    unfold slouchPen
    rw [WEIGHT_SLOUCH]
    linarith
  · simp only [trigOf, decide_eq_true_eq] at h
    have hg := checkPen_gt (w := WEIGHT_LEAN) h3 (by norm_num [WEIGHT_LEAN]) h
    rw [WEIGHT_LEAN] at hg
    show 6 < lateralPen c b th
    unfold lateralPen
    rw [WEIGHT_LEAN]
    linarith
  · simp only [trigOf, decide_eq_true_eq] at h
    have hg := checkPen_gt (w := WEIGHT_SHOULDER) h4 (by norm_num [WEIGHT_SHOULDER]) h.1
    rw [WEIGHT_SHOULDER, if_pos h.1] at hg
    show 6 < shoulderPen c b th
    unfold shoulderPen
    rw [WEIGHT_SHOULDER, if_pos h.1, if_pos h.2]
    linarith
  · simp only [trigOf, decide_eq_true_eq] at h
    show 6 < forwardPen c b
    unfold forwardPen
    rw [WEIGHT_FORWARD, if_pos h.1, if_pos h.2]
    have h3' : (1 : ℚ) / 3 < min 1 ((c.face_forward_ratio - b.face_forward_ratio) / 0.09) := by
      apply lt_min (by norm_num)
      rw [div_lt_div_iff₀ (by norm_num : (0:ℚ) < 3) (by norm_num : (0:ℚ) < 0.09)]
      have := h.2
      norm_num at this ⊢
      linarith
    have : (1 / 3 : ℚ) * 25 < min 1 ((c.face_forward_ratio - b.face_forward_ratio) / 0.09) * 25 :=
      mul_lt_mul_of_pos_right h3' (by norm_num)
    linarith

lemma penOf_removeDev_of_ne {c b : MetricVector} {th : Option ThresholdSet}
    {i j : Fin 5} (hij : j ≠ i) :
    penOf j (removeDev i c b) b th = penOf j c b th := by
  fin_cases i <;> fin_cases j <;>
    simp_all [penOf, removeDev, headDropPen, slouchPen, lateralPen, shoulderPen, forwardPen]

lemma trigOf_removeDev_of_ne {c b : MetricVector} {th : Option ThresholdSet}
    {i j : Fin 5} (hij : j ≠ i) :
    trigOf j (removeDev i c b) b th = trigOf j c b th := by
  fin_cases i <;> fin_cases j <;> simp_all [trigOf, removeDev]

lemma penOf_removeDev_self {c b : MetricVector} {th : Option ThresholdSet}
    (hpos : PosThresholds th) (i : Fin 5) :
    penOf i (removeDev i c b) b th = 0 := by
  obtain ⟨h1, h2, h3, h4⟩ := hpos
  fin_cases i
  · norm_num [penOf, removeDev, headDropPen, sub_self, h1.not_lt]
  · norm_num [penOf, removeDev, slouchPen, sub_self, h2.not_lt]
  · norm_num [penOf, removeDev, lateralPen, sub_self, abs_zero, h3.not_lt]
  · norm_num [penOf, removeDev, shoulderPen, sub_self]
  · norm_num [penOf, removeDev, forwardPen, sub_self]

lemma trigOf_removeDev_self {c b : MetricVector} {th : Option ThresholdSet}
    (hpos : PosThresholds th) (i : Fin 5) :
    trigOf i (removeDev i c b) b th = false := by
  obtain ⟨h1, h2, h3, h4⟩ := hpos
  fin_cases i
  · norm_num [trigOf, removeDev, sub_self, h1.not_lt]
  · norm_num [trigOf, removeDev, sub_self, h2.not_lt]
  · norm_num [trigOf, removeDev, sub_self, abs_zero, h3.not_lt]
  · norm_num [trigOf, removeDev, sub_self]
  · norm_num [trigOf, removeDev, sub_self]

lemma score_lt_of_removed {pi pj : ℚ} (hpi : 0 ≤ pi) (hile : pi ≤ 35)
    (hjle : pj ≤ 35) (hpj : 6 < pj) :
    max 0 (pyTrunc (100 - (pi + pj))) < max 0 (pyTrunc (100 - pi)) := by
  have ha : (0:ℚ) ≤ 100 - (pi + pj) := by linarith
  have hb : (0:ℚ) ≤ 100 - pi := by linarith
  rw [pyTrunc_of_nonneg ha, pyTrunc_of_nonneg hb]
  have g1 : (0:ℤ) ≤ ⌊(100 - (pi + pj) : ℚ)⌋ := Int.le_floor.mpr (by exact_mod_cast ha)
  have g2 : (0:ℤ) ≤ ⌊(100 - pi : ℚ)⌋ := Int.le_floor.mpr (by exact_mod_cast hb)
  rw [max_eq_right g1, max_eq_right g2]
  have key : ⌊(100 - (pi + pj) : ℚ)⌋ + 6 ≤ ⌊(100 - pi : ℚ)⌋ := by
    have hle : ((100 - (pi + pj) : ℚ) + ((6:ℤ) : ℚ)) ≤ (100 - pi : ℚ) := by
      push_cast
      linarith
    calc ⌊(100 - (pi + pj) : ℚ)⌋ + 6 = ⌊((100 - (pi + pj) : ℚ) + ((6:ℤ) : ℚ))⌋ :=
        (Int.floor_add_int _ _).symm
      _ ≤ ⌊(100 - pi : ℚ)⌋ := Int.floor_le_floor hle
  omega

lemma score_remove_strict {c b : MetricVector} {th : Option ThresholdSet}
    (hpos : PosThresholds th) {i j : Fin 5} (hij : i ≠ j)
    (hi : trigOf i c b th = true) (hj : trigOf j c b th = true)
    (hothers : ∀ k : Fin 5, k ≠ i → k ≠ j → trigOf k c b th = false) :
    (compare_to_baseline c b th).2 < (compare_to_baseline (removeDev j c b) b th).2 := by
  have hpen : penaltyOf c b th = penOf i c b th + penOf j c b th := by
    rw [penaltyOf_eq_sum]
    apply Finset.sum_eq_add_of_mem i j (Finset.mem_univ i) (Finset.mem_univ j) hij
    intro k _ hk
    exact penOf_eq_zero_of_not_trig k (hothers k hk.1 hk.2)
  have hpen' : penaltyOf (removeDev j c b) b th = penOf i c b th := by
    rw [penaltyOf_eq_sum]
    have hsum : ∑ k : Fin 5, penOf k (removeDev j c b) b th
        = penOf i (removeDev j c b) b th := by
      apply Finset.sum_eq_single_of_mem i (Finset.mem_univ i)
      intro k _ hki
      by_cases hkj : k = j
      · subst hkj
        exact penOf_removeDev_self hpos k
      · rw [penOf_removeDev_of_ne hkj]
        exact penOf_eq_zero_of_not_trig k (hothers k hki hkj)
    rw [hsum, penOf_removeDev_of_ne hij]
  have e1 : (compare_to_baseline c b th).2 = max 0 (pyTrunc (100 - penaltyOf c b th)) := by
    rw [compare_eq_decomposition]
  have e2 : (compare_to_baseline (removeDev j c b) b th).2 =
      max 0 (pyTrunc (100 - penaltyOf (removeDev j c b) b th)) := by
    rw [compare_eq_decomposition]
  rw [e1, e2, hpen, hpen']
  exact score_lt_of_removed (penOf_nonneg hpos i) (penOf_le_35 i) (penOf_le_35 j)
    (penOf_gt_of_trig hpos j hj)

/-- C6: if exactly two checks trigger, the score is ≤ the score of either
vector obtained by removing one of the two deviations (after which only the
other check triggers), and strictly less whenever both triggered checks
contribute a positive penalty (given positive thresholds they always do). -/
theorem compounding_two_checks (c b : MetricVector) (th : Option ThresholdSet)
    (hpos : PosThresholds th) (i j : Fin 5) (hij : i ≠ j)
    (hi : trigOf i c b th = true) (hj : trigOf j c b th = true)
    (hothers : ∀ k : Fin 5, k ≠ i → k ≠ j → trigOf k c b th = false) :
    ((compare_to_baseline c b th).2 ≤ (compare_to_baseline (removeDev j c b) b th).2
      ∧ (compare_to_baseline c b th).2 ≤ (compare_to_baseline (removeDev i c b) b th).2)
    ∧ (trigOf i (removeDev j c b) b th = true
      ∧ ∀ k : Fin 5, k ≠ i → trigOf k (removeDev j c b) b th = false)
    ∧ (0 < penOf i c b th → 0 < penOf j c b th →
        (compare_to_baseline c b th).2 < (compare_to_baseline (removeDev j c b) b th).2
        ∧ (compare_to_baseline c b th).2 < (compare_to_baseline (removeDev i c b) b th).2) := by
  have hstr1 := score_remove_strict hpos hij hi hj hothers
  have hstr2 := score_remove_strict hpos hij.symm hj hi (fun k hk1 hk2 => hothers k hk2 hk1)
  refine ⟨⟨hstr1.le, hstr2.le⟩, ⟨?_, ?_⟩, fun _ _ => ⟨hstr1, hstr2⟩⟩
  · rw [trigOf_removeDev_of_ne hij]
    exact hi
  · intro k hki
    by_cases hkj : k = j
    · subst hkj
      exact trigOf_removeDev_self hpos k
    · rw [trigOf_removeDev_of_ne hkj]
      exact hothers k hki hkj

/-- Witness for C6: against the zero baseline under default thresholds,
`c6current` triggers exactly the head-drop and slouch checks, and its score
is strictly below the score after removing either deviation. -/
theorem compounding_two_checks_witness :
    (compare_to_baseline c6current zeroMV none).2 <
      (compare_to_baseline (removeDev 1 c6current zeroMV) zeroMV none).2
    ∧ (compare_to_baseline c6current zeroMV none).2 <
      (compare_to_baseline (removeDev 0 c6current zeroMV) zeroMV none).2 :=
  (compounding_two_checks c6current zeroMV none posThresholds_none 0 1 (by decide)
    (by norm_num [trigOf, c6current, zeroMV, tHead, THRESH_HEAD_DROP])
    (by norm_num [trigOf, c6current, zeroMV, tSlouch, THRESH_SLOUCH])
    (by
      intro k hk0 hk1
      fin_cases k
      · exact absurd rfl hk0
      · exact absurd rfl hk1
      · norm_num [trigOf, c6current, zeroMV, tLateral, THRESH_HEAD_FORWARD]
      · norm_num [trigOf, c6current, zeroMV, tShoulder, THRESH_SHOULDER_TILT]
      · norm_num [trigOf, c6current, zeroMV])).2.2
    (by norm_num [penOf, headDropPen, c6current, zeroMV, tHead, THRESH_HEAD_DROP,
      WEIGHT_HEAD_DROP])
    (by norm_num [penOf, slouchPen, c6current, zeroMV, tSlouch, THRESH_SLOUCH,
      WEIGHT_SLOUCH])

/-! ### C3 — alert state machine -/

lemma yellStep_bad_noFire (t0 y now : ℚ)
    (h : ¬(now - t0 > BAD_POSTURE_SECONDS ∧ now - y > COOLDOWN_SECONDS)) :
    yellStep true now ⟨some t0, y⟩ = (⟨some t0, y⟩, false) := by
  simp [yellStep, h]

lemma yellStep_fires (t0 y now : ℚ) (h1 : now - t0 > BAD_POSTURE_SECONDS)
    (h2 : now - y > COOLDOWN_SECONDS) :
    yellStep true now ⟨some t0, y⟩ = (⟨some t0, now⟩, true) := by
  simp [yellStep, h1, h2]

lemma yellRun_cons (s : AlertState) (b : Bool) (t : ℚ) (rest : List (Bool × ℚ)) :
    yellRun s ((b, t) :: rest) =
      ((yellRun (yellStep b t s).1 rest).1,
       (if (yellStep b t s).2 then 1 else 0) + (yellRun (yellStep b t s).1 rest).2) := rfl

lemma yellRun_noFire (t0 y : ℚ) (ts : List ℚ)
    (h : ∀ t ∈ ts, ¬(t - t0 > BAD_POSTURE_SECONDS ∧ t - y > COOLDOWN_SECONDS)) :
    yellRun ⟨some t0, y⟩ (ts.map (fun t => (true, t))) = (⟨some t0, y⟩, 0) := by
  induction ts with
  | nil => rfl
  | cons hd tl ih =>
    rw [List.map_cons, yellRun_cons,
      yellStep_bad_noFire t0 y hd (h hd (List.mem_cons_self hd tl))]
    dsimp only
    rw [ih (fun t ht => h t (List.mem_cons_of_mem hd ht))]
    rfl

/-- One bad stretch from `bad_posture_since = t0`: if every tick stays
within `t0 + 50`, some tick passes `t0 + 5`, and every tick clears the
cooldown against the stamp `y`, exactly one alert fires. -/
lemma yellRun_one_fire (t0 y : ℚ) (ts : List ℚ)
    (hcool : ∀ t ∈ ts, t - y > COOLDOWN_SECONDS)
    (hcap : ∀ t ∈ ts, t ≤ t0 + 50)
    (hex : ∃ t ∈ ts, t0 + BAD_POSTURE_SECONDS < t) :
    (yellRun ⟨some t0, y⟩ (ts.map (fun t => (true, t)))).2 = 1 := by
  induction ts with
  | nil => simp at hex
  | cons hd tl ih =>
    rw [List.map_cons, yellRun_cons]
    by_cases hfire : t0 + BAD_POSTURE_SECONDS < hd
    · rw [yellStep_fires t0 y hd (by rw [BAD_POSTURE_SECONDS] at hfire ⊢; linarith)
        (hcool hd (List.mem_cons_self hd tl))]
      dsimp only
      have hrest : yellRun ⟨some t0, hd⟩ (tl.map (fun t => (true, t))) = (⟨some t0, hd⟩, 0) := by
        apply yellRun_noFire
        intro t ht hc
        have h1 := hcap t (List.mem_cons_of_mem hd ht)
        have h2 := hc.2
        rw [COOLDOWN_SECONDS] at h2
        rw [BAD_POSTURE_SECONDS] at hfire
        linarith
      rw [hrest]
      rfl
    · rw [yellStep_bad_noFire t0 y hd (by
        rw [BAD_POSTURE_SECONDS, COOLDOWN_SECONDS]
        rw [BAD_POSTURE_SECONDS] at hfire
        intro hc
        exact hfire (by linarith [hc.1]))]
      dsimp only
      have hex' : ∃ t ∈ tl, t0 + BAD_POSTURE_SECONDS < t := by
        obtain ⟨t, ht, hgt⟩ := hex
        rcases List.mem_cons.mp ht with rfl | htl
        · exact absurd hgt hfire
        · exact ⟨t, htl, hgt⟩
      have := ih (fun t ht => hcool t (List.mem_cons_of_mem hd ht))
        (fun t ht => hcap t (List.mem_cons_of_mem hd ht)) hex'
      simpa using this

/-- C3: (a) starting with no prior alert (`last_yell_time = 0`), a
continuous bad stretch whose first tick is `t0`, whose ticks all lie past
the 45-second cooldown horizon and within `t0 + 50` ("just over 5 s"), and
which lasts past `t0 + 5`, fires exactly one alert; (b) a second continuous
bad stretch started fresh within 45 s of the stamped alert time `f` fires
none; (c) a firing tick stamps `last_yell_time := now` without resetting
`bad_posture_since`; (d) any tick with an empty issues list resets
`bad_posture_since` to `None`. -/
theorem alert_hysteresis :
    (∀ (t0 : ℚ) (rest : List ℚ),
      (∀ t ∈ t0 :: rest, COOLDOWN_SECONDS < t) →
      (∀ t ∈ t0 :: rest, t ≤ t0 + 50) →
      (∃ t ∈ rest, t0 + BAD_POSTURE_SECONDS < t) →
      (yellRun ⟨none, 0⟩ ((t0 :: rest).map (fun t => (true, t)))).2 = 1)
    ∧ (∀ (f : ℚ) (ts2 : List ℚ), (∀ t ∈ ts2, t ≤ f + COOLDOWN_SECONDS) →
        (yellRun ⟨none, f⟩ (ts2.map (fun t => (true, t)))).2 = 0)
    ∧ (∀ (t0 y now : ℚ), now - t0 > BAD_POSTURE_SECONDS → now - y > COOLDOWN_SECONDS →
        yellStep true now ⟨some t0, y⟩ = (⟨some t0, now⟩, true))
    ∧ (∀ (s : AlertState) (now : ℚ),
        yellStep false now s = (⟨none, s.last_yell_time⟩, false)) := by
  refine ⟨?_, ?_, yellStep_fires, fun s now => rfl⟩
  · intro t0 rest hcool hcap hex
    rw [List.map_cons, yellRun_cons]
    have hstep : yellStep true t0 ⟨none, 0⟩ = (⟨some t0, 0⟩, false) := rfl
    rw [hstep]
    dsimp only
    have := yellRun_one_fire t0 0 rest
      (fun t ht => by
        have := hcool t (List.mem_cons_of_mem t0 ht)
        rw [COOLDOWN_SECONDS] at this ⊢
        linarith)
      (fun t ht => hcap t (List.mem_cons_of_mem t0 ht)) hex
    simpa using this
  · intro f ts2 hband
    induction ts2 with
    | nil => rfl
    | cons hd tl ih =>
      rw [List.map_cons, yellRun_cons]
      have hstep : yellStep true hd ⟨none, f⟩ = (⟨some hd, f⟩, false) := rfl
      rw [hstep]
      dsimp only
      have hrest : yellRun ⟨some hd, f⟩ (tl.map (fun t => (true, t))) = (⟨some hd, f⟩, 0) := by
        apply yellRun_noFire
        intro t ht hc
        have h1 := hband t (List.mem_cons_of_mem hd ht)
        have h2 := hc.2
        rw [COOLDOWN_SECONDS] at h2
        rw [COOLDOWN_SECONDS] at h1
        linarith
      rw [hrest]
      rfl

/-- Witness for C3 at concrete tick sequences: a bad stretch at
`100, 103, 105.6` (no prior alert) fires once; a fresh bad stretch at
`210, 220` within 45 s of an alert stamped at 200 fires none; a firing step
keeps `bad_posture_since`; a good tick clears it. -/
theorem alert_hysteresis_witness :
    (yellRun ⟨none, 0⟩ ([(100 : ℚ), 103, 528/5].map (fun t => (true, t)))).2 = 1
    ∧ (yellRun ⟨none, 200⟩ ([(210 : ℚ), 220].map (fun t => (true, t)))).2 = 0
    ∧ yellStep true 106 ⟨some 100, 0⟩ = (⟨some 100, 106⟩, true)
    ∧ yellStep false 9 ⟨some 3, 7⟩ = (⟨none, 7⟩, false) :=
  ⟨alert_hysteresis.1 100 [103, 528/5]
      (by
        intro t ht
        rw [COOLDOWN_SECONDS]
        fin_cases ht <;> norm_num)
      (by intro t ht; fin_cases ht <;> norm_num)
      ⟨528/5, by norm_num, by rw [BAD_POSTURE_SECONDS]; norm_num⟩,
   alert_hysteresis.2.1 200 [210, 220]
      (by
        intro t ht
        rw [COOLDOWN_SECONDS]
        fin_cases ht <;> norm_num),
   alert_hysteresis.2.2.1 100 0 106 (by rw [BAD_POSTURE_SECONDS]; norm_num)
      (by rw [COOLDOWN_SECONDS]; norm_num),
   alert_hysteresis.2.2.2 ⟨some 3, 7⟩ 9⟩

end PostureGuard
